import Mathlib

/-!
Verification development for the progress-tracking / history subsystem of the
TradingAgents-CN web layer.

The definitions below are a shallow embedding of the Python source:

* `web/components/async_progress_display.py`
  - `display_static_progress_with_controls` (render mutex, progress parsing,
    elapsed-time computation, refresh-rate limiter),
  - `AsyncProgressDisplay._render_progress` (field defaults, elapsed time);
* `web/modules/analysis_history.py`
  - `apply_filters`, `display_statistics`, `delete_analysis_record`;
* `analyze_data_storage.py`
  - the backend listing scans (`progress_*.json` glob, `progress:*` key scan).

Modelling conventions: Python floats (timestamps, percentages) are embedded as
rationals `ℚ`; Python dicts with optional keys become structures of `Option`
fields, with `.get(k, d)` embedded as `Option.getD`; Streamlit session state is
an association list from string keys to values; `st.rerun()` raises a control
exception, and `try/finally` is embedded by applying the finaliser to every
result of the body.  Streamlit widget interactions (button clicks, an injected
rendering exception) are inputs of the environment.  Only the session keys the
progress coordination touches are modelled.
-/

/-- A value stored in the Streamlit session state: the modelled keys hold
booleans (locks, checkbox state) or numbers (timestamps). -/
inductive SVal
  | b (v : Bool)
  | q (v : ℚ)
deriving DecidableEq, Repr

/-- Python truthiness of a session value (`if value:`). -/
def SVal.truthy : SVal → Bool
  | .b v => v
  | .q v => v != 0

/-- Streamlit session state, modelled as an association list from keys to
values (insertion order is irrelevant to the lookups the code performs). -/
structure Session where
  entries : List (String × SVal)
deriving DecidableEq, Repr

/-- `st.session_state[k]` lookup, `none` when the key is absent. -/
def Session.get? (s : Session) (k : String) : Option SVal :=
  match s.entries.find? (fun e => e.1 == k) with
  | some e => some e.2
  | none => none

/-- `st.session_state.get(k, d)` followed by Python truthiness. -/
def Session.getT (s : Session) (k : String) (d : Bool) : Bool :=
  match s.get? k with
  | some v => v.truthy
  | none => d

/-- `st.session_state.get(k, d)` for a numeric default: a stored bool is the
Python int it converts to. -/
def Session.getQ (s : Session) (k : String) (d : ℚ) : ℚ :=
  match s.get? k with
  | some (.q v) => v
  | some (.b v) => if v then 1 else 0
  | none => d

/-- `st.session_state[k] = v` (dict update). -/
def Session.set (s : Session) (k : String) (v : SVal) : Session :=
  ⟨(k, v) :: s.entries.filter (fun e => e.1 != k)⟩

/-- `del st.session_state[k]`, a no-op when the key is absent (the source
always guards the delete with a containment check). -/
def Session.del (s : Session) (k : String) : Session :=
  ⟨s.entries.filter (fun e => e.1 != k)⟩

/-- `k in st.session_state`. -/
def Session.hasKey (s : Session) (k : String) : Bool :=
  (s.get? k).isSome

/-- Session key `progress_display_lock_{analysis_id}` (line 238). -/
def displayLockKey (analysisId : String) : String :=
  "progress_display_lock_" ++ analysisId

/-- Session key `refresh_protection_{analysis_id}` (line 376). -/
def refreshProtectionKey (analysisId : String) : String :=
  "refresh_protection_" ++ analysisId

/-- Session key `auto_refresh_unified_{analysis_id}` (line 392). -/
def autoRefreshKey (analysisId : String) : String :=
  "auto_refresh_unified_" ++ analysisId

/-- Session key `auto_refresh_unified_default_{analysis_id}` (line 268). -/
def autoRefreshDefaultKey (analysisId : String) : String :=
  "auto_refresh_unified_default_" ++ analysisId

/-- One entry of the `steps` list of a progress payload; the refresh limiter
probes it for a `research_depth` key (line 381). -/
structure StepDict where
  research_depth : Option Nat := none
deriving DecidableEq, Repr

/-- A stored progress payload as the display reads it: a decoded dict whose
keys are all optional and probed with `.get(key, default)`. -/
structure ProgressData where
  analysis_id : Option String := none
  status : Option String := none
  current_step : Option Nat := none
  total_steps : Option Nat := none
  current_step_name : Option String := none
  current_step_description : Option String := none
  last_message : Option String := none
  progress_percentage : Option ℚ := none
  start_time : Option ℚ := none
  estimated_total_time : Option ℚ := none
  elapsed_time : Option ℚ := none
  raw_results : Option String := none
  steps : Option (List StepDict) := none
deriving DecidableEq, Repr

/-- Line 381: `progress_data.get('steps', [{}])[0].get('research_depth', 2)
if progress_data.get('steps') else 2` — a missing or empty steps list is
falsy and yields depth 2. -/
def researchDepthOf (pd : ProgressData) : Nat :=
  match pd.steps with
  | some (s :: _) => s.research_depth.getD 2
  | _ => 2

/-- Observable Streamlit output events of one run of the display function. -/
inductive REvent
  | markdown (s : String)
  | info (s : String)
  | success (s : String)
  | errorMsg (s : String)
  | writeln (s : String)
  | progressBar (v : ℚ)
deriving DecidableEq, Repr

/-- How a call of the display function ends: a normal `return`, a
`RerunException` escaping from `st.rerun()`, or a rendering exception
propagating out of the `try` body. -/
inductive Outcome
  | ret (b : Bool)
  | rerunExn
  | exn
deriving DecidableEq, Repr

/-- The field values `display_static_progress_with_controls` extracts from a
present progress payload (lines 284-306) and then renders. -/
structure RenderedView where
  status : String
  current_step : Nat
  current_step_name : String
  progress_percentage : ℚ
  start_time : ℚ
  estimated_total_time : ℚ
  elapsed_time : ℚ
  remaining_time : ℚ
  current_step_description : String
  last_message : String
deriving DecidableEq, Repr

/-- Result of one call of `display_static_progress_with_controls`: the
outcome, the session state after the call, and the observable effects. -/
structure DisplayResult where
  outcome : Outcome
  session : Session
  fetched : Bool
  events : List REvent
  view : Option RenderedView
  statusUsed : Option String
  lockAtRender : Bool
  autoRerun : Bool
  manualRerun : Bool
  slept : Option ℚ
  protectionInterval : Option ℚ
deriving DecidableEq, Repr

/-- Inputs of one call: the arguments, the answer the progress read
(`get_progress_by_id`) would give, the current time, and the widget/failure
events of this run. -/
structure DisplayEnv where
  analysis_id : String
  show_refresh_controls : Bool := true
  show_view_report_button : Bool := true
  progressData : Option ProgressData := none
  now : ℚ := 0
  refreshClicked : Bool := false
  viewReportClicked : Bool := false
  renderRaises : Bool := false
deriving DecidableEq, Repr

/-- The `try` body of `display_static_progress_with_controls` (lines 247-415),
entered with the display lock already set in the session.  The result of the
body is later passed through the `finally` clause by the wrapper; the
`lockAtRender` observation is recorded by the `displayBody` wrapper below. -/
def displayBodyCore (env : DisplayEnv) (sess0 : Session) : DisplayResult :=
  let base : DisplayResult :=
    { outcome := .ret false, session := sess0, fetched := false, events := [],
      view := none, statusUsed := none, lockAtRender := false,
      autoRerun := false, manualRerun := false, slept := none,
      protectionInterval := none }
  let ev0 : List REvent := [.markdown "### 📊 分析进度"]
  if env.renderRaises then
    { base with outcome := .exn, events := ev0 }
  else
    match env.progressData with
    | none =>
      let ev := ev0 ++ [.info "🔄 **当前状态**: 准备开始分析..."]
      let status := "initializing"
      if env.show_refresh_controls then
        if env.refreshClicked then
          { base with outcome := .rerunExn, fetched := true, events := ev,
                      statusUsed := some status, manualRerun := true }
        else
          let akey := autoRefreshDefaultKey env.analysis_id
          let sess1 := if sess0.hasKey akey then sess0 else sess0.set akey (.b true)
          let autoRefresh := sess1.getT akey false
          if autoRefresh && status == "running" then
            { base with outcome := .rerunExn, session := sess1, fetched := true,
                        events := ev, statusUsed := some status, slept := some 3,
                        manualRerun := true }
          else if autoRefresh && (status == "completed" || status == "failed") then
            { base with outcome := .ret false,
                        session := sess1.set akey (.b false), fetched := true,
                        events := ev, statusUsed := some status }
          else
            { base with outcome := .ret false, session := sess1, fetched := true,
                        events := ev, statusUsed := some status }
      else
        { base with outcome := .ret false, fetched := true, events := ev,
                    statusUsed := some status }
    | some pd =>
      let status := pd.status.getD "running"
      let current_step := pd.current_step.getD 0
      let current_step_name := pd.current_step_name.getD "准备阶段"
      let progress_percentage := pd.progress_percentage.getD 0
      let start_time := pd.start_time.getD 0
      let estimated_total_time := pd.estimated_total_time.getD 0
      let elapsed_time :=
        if status = "completed" then pd.elapsed_time.getD 0
        else if start_time > 0 then env.now - start_time
        else pd.elapsed_time.getD 0
      let remaining_time := max (estimated_total_time - elapsed_time) 0
      let current_step_description := pd.current_step_description.getD "初始化分析引擎"
      let last_message := pd.last_message.getD "准备开始分析"
      let view : RenderedView :=
        { status := status, current_step := current_step,
          current_step_name := current_step_name,
          progress_percentage := progress_percentage,
          start_time := start_time,
          estimated_total_time := estimated_total_time,
          elapsed_time := elapsed_time, remaining_time := remaining_time,
          current_step_description := current_step_description,
          last_message := last_message }
      let ev := ev0 ++
        [.writeln current_step_name,
         .progressBar (min (progress_percentage / 100) 1),
         .writeln current_step_description] ++
        (if status = "completed" then [.success last_message]
         else if status = "failed" then [.errorMsg last_message]
         else [.info last_message])
      let base := { base with fetched := true, events := ev, view := some view,
                              statusUsed := some status }
      if status = "completed" && env.show_view_report_button && env.viewReportClicked then
        { base with outcome := .rerunExn, manualRerun := true }
      else if env.show_refresh_controls && (status == "running" || status == "initializing") then
        let pkey := refreshProtectionKey env.analysis_id
        let last_refresh_time := sess0.getQ pkey 0
        let research_depth := researchDepthOf pd
        let protection_interval : ℚ := if research_depth = 1 then 5 else 2
        let base := { base with protectionInterval := some protection_interval }
        if env.refreshClicked then
          { base with outcome := .rerunExn, session := sess0.del pkey,
                      manualRerun := true }
        else
          let akey := autoRefreshKey env.analysis_id
          let sess1 := if sess0.hasKey akey then sess0 else sess0.set akey (.b true)
          let autoRefresh := sess1.getT akey false
          if autoRefresh && status == "running" then
            if env.now - last_refresh_time ≥ protection_interval then
              let sess2 := sess1.set pkey (.q env.now)
              let sleep_time : ℚ := if research_depth = 1 then 6 else 3
              { base with outcome := .rerunExn, session := sess2,
                          autoRerun := true, slept := some sleep_time }
            else
              { base with outcome := .ret (status == "completed" || status == "failed"),
                          session := sess1 }
          else if autoRefresh && (status == "completed" || status == "failed") then
            { base with outcome := .ret (status == "completed" || status == "failed"),
                        session := sess1.set akey (.b false) }
          else
            { base with outcome := .ret (status == "completed" || status == "failed"),
                        session := sess1 }
      else
        { base with outcome := .ret (status == "completed" || status == "failed") }

/-- The `try` body together with the observation whether the display lock is
set in the session when the body starts rendering. -/
def displayBody (env : DisplayEnv) (sess0 : Session) : DisplayResult :=
  { displayBodyCore env sess0 with
      lockAtRender := sess0.getT (displayLockKey env.analysis_id) false }

/-- `display_static_progress_with_controls` (lines 230-420): the render mutex
check (lines 238-242), lock acquisition (line 245), the `try` body, and the
`finally` clause releasing the lock (lines 417-420), which also applies to the
exceptional outcomes. -/
def display_static_progress_with_controls (env : DisplayEnv) (sess : Session) :
    DisplayResult :=
  let lockKey := displayLockKey env.analysis_id
  if sess.getT lockKey false then
    { outcome := .ret false, session := sess, fetched := false, events := [],
      view := none, statusUsed := none, lockAtRender := false,
      autoRerun := false, manualRerun := false, slept := none,
      protectionInterval := none }
  else
    let r := displayBody env (sess.set lockKey (.b true))
    { r with session := r.session.del lockKey }

/-- The field values `AsyncProgressDisplay._render_progress` extracts from a
progress payload (lines 82-93): note the defaults `total_steps = 8`,
`current_step_name = '未知'`, and empty strings for the description and the
last message. -/
structure RenderFields where
  current_step : Nat
  total_steps : Nat
  progress_percentage : ℚ
  status : String
  step_name : String
  step_description : String
  last_message : String
  elapsed_time : ℚ
  remaining_time : ℚ
deriving DecidableEq, Repr

/-- `AsyncProgressDisplay._render_progress` field extraction and time
computation (lines 82-93 and 137-154). -/
def renderProgressFields (pd : ProgressData) (now : ℚ) : RenderFields :=
  let status := pd.status.getD "running"
  let start_time := pd.start_time.getD 0
  let estimated_total_time := pd.estimated_total_time.getD 0
  let real_elapsed_time :=
    if status = "completed" then pd.elapsed_time.getD 0
    else if start_time > 0 then now - start_time
    else pd.elapsed_time.getD 0
  { current_step := pd.current_step.getD 0,
    total_steps := pd.total_steps.getD 8,
    progress_percentage := pd.progress_percentage.getD 0,
    status := status,
    step_name := pd.current_step_name.getD "未知",
    step_description := pd.current_step_description.getD "",
    last_message := pd.last_message.getD "",
    elapsed_time := real_elapsed_time,
    remaining_time := max (estimated_total_time - real_elapsed_time) 0 }

/-- Name of a job's durable-store file: `progress_{job_id}.json`. -/
def progressFileName (jobId : String) : String :=
  "progress_" ++ jobId ++ ".json"

/-- Path of a job's durable-store file: `{data_dir}/progress_{job_id}.json`
(`delete_analysis_record` line 442, `analyze_file_storage` line 28). -/
def progressFilePath (dataDir jobId : String) : String :=
  dataDir ++ "/" ++ progressFileName jobId

/-- Key of a job's expiring-store record: `progress:{job_id}`
(`delete_analysis_record` line 475, `analyze_redis_storage` line 138). -/
def redisKey (jobId : String) : String :=
  "progress:" ++ jobId

/-- The durable-store listing scan of `analyze_file_storage` (line 28):
`glob.glob(os.path.join(data_dir, "progress_*.json"))`, embedded as the
basename pattern `progress_*.json` — a fixed prefix, anything, a fixed
suffix. -/
def matchesProgressGlob (fileName : String) : Bool :=
  "progress_".data.isPrefixOf fileName.data &&
    ".json".data.reverse.isPrefixOf fileName.data.reverse

/-- The expiring-store listing scan of `analyze_redis_storage` (line 138):
`redis_client.keys("progress:*")`, embedded as the key pattern
`progress:*`. -/
def matchesRedisPattern (key : String) : Bool :=
  "progress:".data.isPrefixOf key.data

/-- Outcome of one backend's part of `delete_analysis_record`. -/
inductive DelOutcome
  | ok
  | notFound
  | err
  | skipped
deriving DecidableEq, Repr

/-- The durable (file) backend as `delete_analysis_record` sees it: the set of
existing file paths, and whether `os.remove` raises. -/
structure FileBackend where
  files : List String
  removeFails : Bool := false
deriving DecidableEq, Repr

/-- The expiring (Redis) backend as `delete_analysis_record` sees it: the
enable flag, the set of existing keys, and whether the connection/delete
raises. -/
structure RedisBackend where
  enabled : Bool := true
  keys : List String
  connectFails : Bool := false
deriving DecidableEq, Repr

/-- Result of `delete_analysis_record`: a per-backend outcome, the surviving
backend contents, the `success_count` / collected error messages of the
source, and the overall success predicate `success_count > 0` deciding
between the success and failure banners (lines 485-496). -/
structure DeleteResult where
  fileOutcome : DelOutcome
  redisOutcome : DelOutcome
  files : List String
  keys : List String
  successCount : Nat
  errorCount : Nat
  overallSuccess : Bool
deriving DecidableEq, Repr

/-- `delete_analysis_record` (lines 431-500): the file removal attempt (lines
441-448) and the Redis removal attempt (lines 451-482) each live in their own
`try/except`; an exception in one adds an error message and does not stop the
other; `success_count` counts actual removals and the call reports success
iff it is positive. -/
def delete_analysis_record (analysisId : String) (fb : FileBackend)
    (rb : RedisBackend) : DeleteResult :=
  let path := progressFilePath "./data" analysisId
  let fileStep :
      DelOutcome × List String × Nat × Nat :=
    if fb.files.contains path then
      if fb.removeFails then (.err, fb.files, 0, 1)
      else (.ok, fb.files.filter (fun p => p != path), 1, 0)
    else (.notFound, fb.files, 0, 0)
  let key := redisKey analysisId
  let redisStep :
      DelOutcome × List String × Nat × Nat :=
    if rb.enabled then
      if rb.connectFails then (.err, rb.keys, 0, 1)
      else if rb.keys.contains key then
        (.ok, rb.keys.filter (fun k => k != key), 1, 0)
      else (.notFound, rb.keys, 0, 0)
    else (.skipped, rb.keys, 0, 0)
  let successCount := fileStep.2.2.1 + redisStep.2.2.1
  { fileOutcome := fileStep.1, redisOutcome := redisStep.1,
    files := fileStep.2.1, keys := redisStep.2.1,
    successCount := successCount,
    errorCount := fileStep.2.2.2 + redisStep.2.2.2,
    overallSuccess := decide (0 < successCount) }

/-- One decoded history record as `apply_filters` / `display_statistics`
consume it (only the probed keys are modelled). -/
structure HistoryRecord where
  status : Option String := none
  last_update : Option ℚ := none
deriving DecidableEq, Repr

/-- The `status_map` of `apply_filters` (lines 95-100). -/
def statusMap (statusFilter : String) : Option String :=
  if statusFilter = "已完成" then some "completed"
  else if statusFilter = "运行中" then some "running"
  else if statusFilter = "失败" then some "failed"
  else none

/-- The cutoff timestamp of the time filter (lines 105-116): start of today
for `今天`, `now` minus 7 or 30 days (in seconds) for the recent ranges, and
`0` otherwise. -/
def cutoffTimestamp (timeFilter : String) (startOfDay now : ℚ) : ℚ :=
  if timeFilter = "今天" then startOfDay
  else if timeFilter = "最近7天" then now - 604800
  else if timeFilter = "最近30天" then now - 2592000
  else 0

/-- `apply_filters` (lines 89-120): the status filter keeps records whose
`status` equals the mapped target (no filtering when the option is `全部` or
unmapped); the time filter keeps records with `last_update` (default 0) at
least the cutoff; each stage is a `List.filter` of the previous one. -/
def apply_filters (records : List HistoryRecord) (statusFilter timeFilter : String)
    (startOfDay now : ℚ) : List HistoryRecord :=
  let filtered := records
  let filtered :=
    if statusFilter ≠ "全部" then
      match statusMap statusFilter with
      | some target => filtered.filter (fun r => r.status == some target)
      | none => filtered
    else filtered
  let filtered :=
    if timeFilter ≠ "全部" then
      filtered.filter
        (fun r => r.last_update.getD 0 ≥ cutoffTimestamp timeFilter startOfDay now)
    else filtered
  filtered

/-- The failed-count metric delta of `display_statistics` (line 149): a
computed percentage when some record failed, the literal string `0%`
otherwise. -/
inductive FailedDelta
  | pct (v : Option ℚ)
  | zeroPercent
deriving DecidableEq, Repr

/-- A percentage `num / den * 100`, `none` when the division would be by
zero (Python would raise `ZeroDivisionError` there). -/
def pctOf (num den : Nat) : Option ℚ :=
  if den = 0 then none else some ((num : ℚ) / (den : ℚ) * 100)

/-- The metrics `display_statistics` renders (lines 130-149). -/
structure StatsView where
  totalRecords : Nat
  completedCount : Nat
  completedPct : Option ℚ
  runningCount : Nat
  failedCount : Nat
  failedDelta : FailedDelta
deriving DecidableEq, Repr

/-- `display_statistics` (lines 123-149): returns without rendering on an
empty list (`none`), otherwise renders counts and percentages whose only
divisor is the list length. -/
def display_statistics (records : List HistoryRecord) : Option StatsView :=
  if records.isEmpty then none
  else
    let completed := (records.filter (fun r => r.status == some "completed")).length
    let running := (records.filter (fun r => r.status == some "running")).length
    let failed := (records.filter (fun r => r.status == some "failed")).length
    some
      { totalRecords := records.length,
        completedCount := completed,
        completedPct := pctOf completed records.length,
        runningCount := running,
        failedCount := failed,
        failedDelta :=
          if 0 < failed then .pct (pctOf failed records.length)
          else .zeroPercent }

theorem find?_filter_ne_eq (l : List (String × SVal)) (k k' : String)
    (h : k' ≠ k) :
    (l.filter (fun e => e.1 != k)).find? (fun e => e.1 == k') =
      l.find? (fun e => e.1 == k') := by
  induction l with
  | nil => rfl
  | cons e l ih =>
    by_cases hek : e.1 = k
    · have h1 : (e.1 != k) = false := by simp [hek]
      have h2 : (e.1 == k') = false := by
        rw [hek]
        exact beq_eq_false_iff_ne.mpr (Ne.symm h)
      simp [List.filter_cons, List.find?_cons, h1, h2, ih]
    · have h1 : (e.1 != k) = true := by simp [hek]
      by_cases he : e.1 = k'
      · have h2 : (e.1 == k') = true := by simp [he]
        simp [List.filter_cons, List.find?_cons, h1, h2]
      · have h2 : (e.1 == k') = false := by simp [he]
        simp [List.filter_cons, List.find?_cons, h1, h2, ih]

theorem Session.get?_set_self (s : Session) (k : String) (v : SVal) :
    (s.set k v).get? k = some v := by
  simp [Session.get?, Session.set, List.find?_cons]

theorem Session.get?_set_ne (s : Session) (k k' : String) (v : SVal)
    (h : k' ≠ k) : (s.set k v).get? k' = s.get? k' := by
  have hne : (k == k') = false := by
    simp [Ne.symm h]
  simp [Session.get?, Session.set, List.find?_cons, hne,
        find?_filter_ne_eq _ _ _ h]

theorem Session.get?_del_self (s : Session) (k : String) :
    (s.del k).get? k = none := by
  have hnone : (s.entries.filter (fun e => e.1 != k)).find?
      (fun e => e.1 == k) = none := by
    rw [List.find?_eq_none]
    intro x hx
    have hmem := List.of_mem_filter hx
    simp only [bne_iff_ne, ne_eq, decide_eq_true_eq] at hmem
    simp [hmem]
  simp [Session.get?, Session.del, hnone]

theorem Session.hasKey_del_self (s : Session) (k : String) :
    (s.del k).hasKey k = false := by
  simp [Session.hasKey, Session.get?_del_self]

theorem Session.getT_set_self (s : Session) (k : String) (v : SVal)
    (d : Bool) : (s.set k v).getT k d = v.truthy := by
  simp [Session.getT, Session.get?_set_self]

theorem Session.getT_set_ne (s : Session) (k k' : String) (v : SVal)
    (d : Bool) (h : k' ≠ k) : (s.set k v).getT k' d = s.getT k' d := by
  simp [Session.getT, Session.get?_set_ne _ _ _ _ h]

theorem Session.getQ_set_ne (s : Session) (k k' : String) (v : SVal)
    (d : ℚ) (h : k' ≠ k) : (s.set k v).getQ k' d = s.getQ k' d := by
  simp [Session.getQ, Session.get?_set_ne _ _ _ _ h]

theorem Session.hasKey_set_ne (s : Session) (k k' : String) (v : SVal)
    (h : k' ≠ k) : (s.set k v).hasKey k' = s.hasKey k' := by
  simp [Session.hasKey, Session.get?_set_ne _ _ _ _ h]

theorem refreshProtectionKey_ne_displayLockKey (analysisId : String) :
    refreshProtectionKey analysisId ≠ displayLockKey analysisId := by
  intro h
  have h' := congrArg String.length h
  have e1 : ("refresh_protection_" : String).length = 19 := by decide
  have e2 : ("progress_display_lock_" : String).length = 22 := by decide
  simp only [refreshProtectionKey, displayLockKey, String.length_append,
             e1, e2] at h'
  omega

theorem autoRefreshKey_ne_displayLockKey (analysisId : String) :
    autoRefreshKey analysisId ≠ displayLockKey analysisId := by
  intro h
  have h' := congrArg String.length h
  have e1 : ("auto_refresh_unified_" : String).length = 21 := by decide
  have e2 : ("progress_display_lock_" : String).length = 22 := by decide
  simp only [autoRefreshKey, displayLockKey, String.length_append,
             e1, e2] at h'
  omega

theorem autoRefreshDefaultKey_ne_displayLockKey (analysisId : String) :
    autoRefreshDefaultKey analysisId ≠ displayLockKey analysisId := by
  intro h
  have h' := congrArg String.length h
  have e1 : ("auto_refresh_unified_default_" : String).length = 29 := by decide
  have e2 : ("progress_display_lock_" : String).length = 22 := by decide
  simp only [autoRefreshDefaultKey, displayLockKey, String.length_append,
             e1, e2] at h'
  omega

theorem displayBody_lockAtRender (env : DisplayEnv) (s : Session) :
    (displayBody env s).lockAtRender =
      s.getT (displayLockKey env.analysis_id) false := rfl

/-- C1: at most one in-flight render per analysis id per session — when the
session display lock for the analysis id is already set,
`display_static_progress_with_controls` returns `False` immediately: no
progress fetch, no render events, session unchanged (the poll is dropped,
not queued); when the lock is free, the lock is set before rendering
begins. -/
theorem claim1_render_mutex (env : DisplayEnv) (sess : Session) :
    (sess.getT (displayLockKey env.analysis_id) false = true →
      display_static_progress_with_controls env sess =
        { outcome := .ret false, session := sess, fetched := false,
          events := [], view := none, statusUsed := none,
          lockAtRender := false, autoRerun := false, manualRerun := false,
          slept := none, protectionInterval := none }) ∧
    (sess.getT (displayLockKey env.analysis_id) false = false →
      (display_static_progress_with_controls env sess).lockAtRender = true) := by
  constructor
  · intro h
    simp [display_static_progress_with_controls, h]
  · intro h
    simp [display_static_progress_with_controls, h, displayBody_lockAtRender,
          Session.getT_set_self, SVal.truthy]

/-- C1 witness: a locked session drops the poll unchanged; an unlocked
session has the lock set when rendering starts. -/
theorem claim1_render_mutex_witness :
    (display_static_progress_with_controls
        { analysis_id := "a1", now := 0 }
        ⟨[("progress_display_lock_a1", SVal.b true)]⟩ =
      { outcome := .ret false,
        session := ⟨[("progress_display_lock_a1", SVal.b true)]⟩,
        fetched := false, events := [], view := none, statusUsed := none,
        lockAtRender := false, autoRerun := false, manualRerun := false,
        slept := none, protectionInterval := none }) ∧
    ((display_static_progress_with_controls
        { analysis_id := "a1", now := 0 } ⟨[]⟩).lockAtRender = true) :=
  ⟨(claim1_render_mutex { analysis_id := "a1", now := 0 }
      ⟨[("progress_display_lock_a1", SVal.b true)]⟩).1 (by decide),
   (claim1_render_mutex { analysis_id := "a1", now := 0 } ⟨[]⟩).2 (by decide)⟩

/-- C9: every call that acquires the display lock releases it before
returning — the lock key is absent from the final session state on a normal
return and equally when an exception is raised during rendering (the
`finally` clause runs in both cases), so a failed render never leaves the
lock held. -/
theorem claim9_lock_always_released (env : DisplayEnv) (sess : Session)
    (h : sess.getT (displayLockKey env.analysis_id) false = false) :
    (display_static_progress_with_controls env sess).session.get?
        (displayLockKey env.analysis_id) = none ∧
    (display_static_progress_with_controls { env with renderRaises := true }
        sess).outcome = .exn ∧
    (display_static_progress_with_controls { env with renderRaises := true }
        sess).session.get? (displayLockKey env.analysis_id) = none := by
  refine ⟨?_, ?_, ?_⟩
  · simp [display_static_progress_with_controls, h, Session.get?_del_self]
  · simp [display_static_progress_with_controls, h, displayBody,
          displayBodyCore]
  · simp [display_static_progress_with_controls, h, Session.get?_del_self]

/-- C9 witness: at a concrete unlocked session the lock key is absent after
a normal run and after a run whose rendering raises. -/
theorem claim9_lock_always_released_witness :
    ((display_static_progress_with_controls
        { analysis_id := "a1", now := 0 } ⟨[]⟩).session.get?
        "progress_display_lock_a1" = none) ∧
    ((display_static_progress_with_controls
        { analysis_id := "a1", now := 0, renderRaises := true }
        ⟨[]⟩).outcome = .exn) := by
  have h := claim9_lock_always_released { analysis_id := "a1", now := 0 }
    ⟨[]⟩ (by decide)
  exact ⟨h.1, h.2.1⟩

/-- C6: when the progress read finds no record for the requested analysis id,
the display treats the status as `initializing`, renders the preparing
message, raises no error, and returns `False` (not completed). -/
theorem claim6_missing_record (env : DisplayEnv) (sess : Session)
    (hlock : sess.getT (displayLockKey env.analysis_id) false = false)
    (hpd : env.progressData = none)
    (hraise : env.renderRaises = false)
    (hclick : env.refreshClicked = false) :
    (display_static_progress_with_controls env sess).outcome = .ret false ∧
    (display_static_progress_with_controls env sess).statusUsed =
      some "initializing" ∧
    (display_static_progress_with_controls env sess).events =
      [.markdown "### 📊 分析进度", .info "🔄 **当前状态**: 准备开始分析..."] ∧
    (∀ m, REvent.errorMsg m ∉
      (display_static_progress_with_controls env sess).events) := by
  have h1 : (("initializing" : String) == "running") = false := by decide
  have h2 : (("initializing" : String) == "completed") = false := by decide
  have h3 : (("initializing" : String) == "failed") = false := by decide
  rcases hs : env.show_refresh_controls with _ | _ <;>
    simp [display_static_progress_with_controls, hlock, displayBody,
          displayBodyCore, hpd, hraise, hclick, hs, h1, h2, h3]

/-- C6 witness: a concrete call with no stored record. -/
theorem claim6_missing_record_witness :
    ((display_static_progress_with_controls
        { analysis_id := "a1", now := 0 } ⟨[]⟩).outcome = .ret false) ∧
    ((display_static_progress_with_controls
        { analysis_id := "a1", now := 0 } ⟨[]⟩).statusUsed =
      some "initializing") := by
  have h := claim6_missing_record { analysis_id := "a1", now := 0 } ⟨[]⟩
    (by decide) rfl rfl rfl
  exact ⟨h.1, h.2.1⟩

/-- The parsed view a successful fetch always renders: field extraction with
the source's defaults, and the elapsed/remaining time computation of lines
289-304. -/
def parsedView (pd : ProgressData) (now : ℚ) : RenderedView :=
  { status := pd.status.getD "running",
    current_step := pd.current_step.getD 0,
    current_step_name := pd.current_step_name.getD "准备阶段",
    progress_percentage := pd.progress_percentage.getD 0,
    start_time := pd.start_time.getD 0,
    estimated_total_time := pd.estimated_total_time.getD 0,
    elapsed_time :=
      if pd.status.getD "running" = "completed" then pd.elapsed_time.getD 0
      else if pd.start_time.getD 0 > 0 then now - pd.start_time.getD 0
      else pd.elapsed_time.getD 0,
    remaining_time := max (pd.estimated_total_time.getD 0 -
      (if pd.status.getD "running" = "completed" then pd.elapsed_time.getD 0
       else if pd.start_time.getD 0 > 0 then now - pd.start_time.getD 0
       else pd.elapsed_time.getD 0)) 0,
    current_step_description := pd.current_step_description.getD "初始化分析引擎",
    last_message := pd.last_message.getD "准备开始分析" }

theorem displayBody_view_eq (env : DisplayEnv) (s : Session)
    (pd : ProgressData) (hpd : env.progressData = some pd)
    (hraise : env.renderRaises = false) :
    (displayBody env s).view = some (parsedView pd env.now) := by
  simp only [displayBody, displayBodyCore, hpd, hraise, Bool.false_eq_true,
             if_false, parsedView]
  repeat' split
  all_goals rfl

theorem display_view_eq (env : DisplayEnv) (sess : Session)
    (hlock : sess.getT (displayLockKey env.analysis_id) false = false)
    (hpd : env.progressData = some pd) (hraise : env.renderRaises = false) :
    (display_static_progress_with_controls env sess).view =
      some (parsedView pd env.now) := by
  simp only [display_static_progress_with_controls, hlock, Bool.false_eq_true,
             if_false]
  exact displayBody_view_eq env _ pd hpd hraise

/-- C2 counterexample: a `failed` record with positive `start_time` and a
stored `elapsed_time` of 5 is rendered at `now = 200` with elapsed time
`now - start_time = 100`, not the stored frozen value — so the stored value
is not authoritative on both terminal states. -/
theorem claim2_counterexample :
    (({ status := some "failed", start_time := some 100,
        elapsed_time := some 5 : ProgressData }).status.getD "running" =
      "failed") ∧
    (display_static_progress_with_controls
        { analysis_id := "a1", show_refresh_controls := false,
          progressData := some { status := some "failed",
                                 start_time := some 100,
                                 elapsed_time := some 5 },
          now := 200 } ⟨[]⟩).view.map RenderedView.elapsed_time =
      some 100 ∧
    (({ status := some "failed", start_time := some 100,
        elapsed_time := some 5 : ProgressData }).elapsed_time.getD 0 = 5) ∧
    some (100 : ℚ) ≠ some (5 : ℚ) := by
  have hne : (("failed" : String) = "completed") = False := by
    simp only [eq_iff_iff, iff_false]
    decide
  refine ⟨rfl, ?_, rfl, by norm_num⟩
  rw [display_view_eq _ _ (by decide) rfl rfl]
  simp [parsedView, hne]
  norm_num

/-- C2 (amended): the stored `elapsed_time` is authoritative only when the
status is `completed` (and as a fallback when `start_time` is not positive);
in every other case — including the terminal `failed` state — the rendered
elapsed time is derived as `now - start_time`.
`AsyncProgressDisplay._render_progress` computes the identical value. -/
theorem claim2_elapsed_time (env : DisplayEnv) (sess : Session)
    (pd : ProgressData)
    (hlock : sess.getT (displayLockKey env.analysis_id) false = false)
    (hpd : env.progressData = some pd)
    (hraise : env.renderRaises = false) :
    (pd.status.getD "running" = "completed" →
      (display_static_progress_with_controls env sess).view.map
        RenderedView.elapsed_time = some (pd.elapsed_time.getD 0)) ∧
    (pd.status.getD "running" ≠ "completed" → 0 < pd.start_time.getD 0 →
      (display_static_progress_with_controls env sess).view.map
        RenderedView.elapsed_time = some (env.now - pd.start_time.getD 0)) ∧
    (pd.status.getD "running" ≠ "completed" → ¬ 0 < pd.start_time.getD 0 →
      (display_static_progress_with_controls env sess).view.map
        RenderedView.elapsed_time = some (pd.elapsed_time.getD 0)) ∧
    (renderProgressFields pd env.now).elapsed_time =
      (parsedView pd env.now).elapsed_time := by
  rw [display_view_eq env sess hlock hpd hraise]
  refine ⟨?_, ?_, ?_, rfl⟩
  · intro hc
    simp [parsedView, hc]
  · intro hc hst
    simp [parsedView, hc, hst]
  · intro hc hst
    simp [parsedView, hc, hst]

/-- C2 witness: a completed record is rendered with its stored elapsed time,
a running record with `now - start_time`. -/
theorem claim2_elapsed_time_witness :
    (display_static_progress_with_controls
        { analysis_id := "a1", show_refresh_controls := false,
          progressData := some { status := some "completed",
                                 start_time := some 100,
                                 elapsed_time := some 42 },
          now := 200 } ⟨[]⟩).view.map RenderedView.elapsed_time =
      some 42 :=
  (claim2_elapsed_time
      { analysis_id := "a1", show_refresh_controls := false,
        progressData := some { status := some "completed",
                               start_time := some 100,
                               elapsed_time := some 42 },
        now := 200 } ⟨[]⟩
      { status := some "completed", start_time := some 100,
        elapsed_time := some 42 }
      (by decide) rfl rfl).1 (by decide)

/-- C7 counterexample: a payload carrying only the identity fields decodes
with `total_steps = 8` (a numeric default that is not 0) and with the
description and last message defaulting to the empty string (not an
"unknown" sentinel). -/
theorem claim7_counterexample :
    ((renderProgressFields
        { analysis_id := some "a1", status := some "running" } 0).total_steps
      = 8) ∧
    ((8 : Nat) ≠ 0) ∧
    ((renderProgressFields
        { analysis_id := some "a1", status := some "running" } 0).last_message
      = "") ∧
    ((renderProgressFields
        { analysis_id := some "a1", status := some "running" }
        0).step_description = "") ∧
    (("" : String) ≠ "未知") := by decide

/-- C7 (amended): on decode, the numeric fields `current_step` and
`progress_percentage` (and, in the controls display, `start_time` and
`estimated_total_time`) default to 0, but `total_steps` defaults to 8; the
step-name string defaults to a non-empty placeholder (`未知` in
`_render_progress`, `准备阶段` in the controls display), while the step
description and the last message default to the empty string in
`_render_progress` and to the non-empty placeholders `初始化分析引擎` /
`准备开始分析` in the controls display. -/
theorem claim7_decode_defaults (env : DisplayEnv) (sess : Session)
    (pd : ProgressData) (now : ℚ)
    (hlock : sess.getT (displayLockKey env.analysis_id) false = false)
    (hpd : env.progressData = some pd)
    (hraise : env.renderRaises = false) :
    (pd.current_step = none → (renderProgressFields pd now).current_step = 0) ∧
    (pd.progress_percentage = none →
      (renderProgressFields pd now).progress_percentage = 0) ∧
    (pd.total_steps = none → (renderProgressFields pd now).total_steps = 8) ∧
    (pd.current_step_name = none →
      (renderProgressFields pd now).step_name = "未知") ∧
    (pd.current_step_description = none →
      (renderProgressFields pd now).step_description = "") ∧
    (pd.last_message = none → (renderProgressFields pd now).last_message = "") ∧
    (pd.current_step_name = none →
      (display_static_progress_with_controls env sess).view.map
        RenderedView.current_step_name = some "准备阶段") ∧
    (pd.current_step_description = none →
      (display_static_progress_with_controls env sess).view.map
        RenderedView.current_step_description = some "初始化分析引擎") ∧
    (pd.last_message = none →
      (display_static_progress_with_controls env sess).view.map
        RenderedView.last_message = some "准备开始分析") ∧
    (pd.progress_percentage = none →
      (display_static_progress_with_controls env sess).view.map
        RenderedView.progress_percentage = some 0) ∧
    (pd.start_time = none →
      (display_static_progress_with_controls env sess).view.map
        RenderedView.start_time = some 0) ∧
    (pd.estimated_total_time = none →
      (display_static_progress_with_controls env sess).view.map
        RenderedView.estimated_total_time = some 0) := by
  rw [display_view_eq env sess hlock hpd hraise]
  refine ⟨?_, ?_, ?_, ?_, ?_, ?_, ?_, ?_, ?_, ?_, ?_, ?_⟩ <;>
    intro h <;> simp [renderProgressFields, parsedView, h]

/-- C7 witness: the defaults at a concrete minimal payload. -/
theorem claim7_decode_defaults_witness :
    ((renderProgressFields
        { analysis_id := some "a1", status := some "completed" } 0).current_step
      = 0) ∧
    ((display_static_progress_with_controls
        { analysis_id := "a1", show_refresh_controls := false,
          progressData := some { analysis_id := some "a1",
                                 status := some "completed" },
          now := 0 } ⟨[]⟩).view.map RenderedView.current_step_name =
      some "准备阶段") := by
  have h := claim7_decode_defaults
    { analysis_id := "a1", show_refresh_controls := false,
      progressData := some { analysis_id := some "a1",
                             status := some "completed" },
      now := 0 } ⟨[]⟩
    { analysis_id := some "a1", status := some "completed" } 0
    (by decide) rfl rfl
  exact ⟨h.1 rfl, h.2.2.2.2.2.2.1 rfl⟩

theorem display_controls_characterization (env : DisplayEnv) (sess : Session)
    (pd : ProgressData)
    (hlock : sess.getT (displayLockKey env.analysis_id) false = false)
    (hraise : env.renderRaises = false)
    (hpd : env.progressData = some pd)
    (hstatus : pd.status.getD "running" = "running")
    (hshow : env.show_refresh_controls = true)
    (hclick : env.refreshClicked = false)
    (hauto : sess.get? (autoRefreshKey env.analysis_id) = some (.b true)) :
    (display_static_progress_with_controls env sess).protectionInterval =
      some (if researchDepthOf pd = 1 then (5 : ℚ) else 2) ∧
    ((display_static_progress_with_controls env sess).autoRerun =
      decide (env.now - sess.getQ (refreshProtectionKey env.analysis_id) 0 ≥
        (if researchDepthOf pd = 1 then (5 : ℚ) else 2))) ∧
    ((display_static_progress_with_controls env sess).autoRerun = true →
      (display_static_progress_with_controls env sess).slept =
        some (if researchDepthOf pd = 1 then (6 : ℚ) else 3)) := by
  have hdc : decide (("running" : String) = "completed") = false := by decide
  have hne1 := autoRefreshKey_ne_displayLockKey env.analysis_id
  have hne2 := refreshProtectionKey_ne_displayLockKey env.analysis_id
  have hautoT : (sess.set (displayLockKey env.analysis_id)
      (SVal.b true)).getT (autoRefreshKey env.analysis_id) false = true := by
    rw [Session.getT_set_ne _ _ _ _ _ hne1]
    simp [Session.getT, hauto, SVal.truthy]
  have hhk : (sess.set (displayLockKey env.analysis_id)
      (SVal.b true)).hasKey (autoRefreshKey env.analysis_id) = true := by
    rw [Session.hasKey_set_ne _ _ _ _ hne1]
    simp [Session.hasKey, hauto]
  have hgq : (sess.set (displayLockKey env.analysis_id)
      (SVal.b true)).getQ (refreshProtectionKey env.analysis_id) 0 =
      sess.getQ (refreshProtectionKey env.analysis_id) 0 :=
    Session.getQ_set_ne _ _ _ _ _ hne2
  by_cases hcmp : env.now - sess.getQ (refreshProtectionKey env.analysis_id) 0 ≥
      (if researchDepthOf pd = 1 then (5 : ℚ) else 2) <;>
    simp [display_static_progress_with_controls, displayBody, displayBodyCore,
          hlock, hpd, hraise, hstatus, hshow, hclick, hdc, hautoT, hhk, hgq,
          hcmp]

/-- C4: with auto-refresh enabled on a running job, a forced refresh fires
exactly when the time since the last protected refresh is at least the
protection interval; the interval is 5 when the step plan's research depth
is 1 and 2 otherwise, so the depth-1 interval is strictly larger than the
interval of every other depth (and the accompanying sleep widens from 3 to
6). -/
theorem claim4_refresh_rate_limiter
    (env : DisplayEnv) (sess : Session) (pd : ProgressData)
    (env' : DisplayEnv) (sess' : Session) (pd' : ProgressData)
    (hlock : sess.getT (displayLockKey env.analysis_id) false = false)
    (hraise : env.renderRaises = false)
    (hpd : env.progressData = some pd)
    (hstatus : pd.status.getD "running" = "running")
    (hshow : env.show_refresh_controls = true)
    (hclick : env.refreshClicked = false)
    (hauto : sess.get? (autoRefreshKey env.analysis_id) = some (.b true))
    (hlock' : sess'.getT (displayLockKey env'.analysis_id) false = false)
    (hraise' : env'.renderRaises = false)
    (hpd' : env'.progressData = some pd')
    (hstatus' : pd'.status.getD "running" = "running")
    (hshow' : env'.show_refresh_controls = true)
    (hclick' : env'.refreshClicked = false)
    (hauto' : sess'.get? (autoRefreshKey env'.analysis_id) = some (.b true)) :
    ((display_static_progress_with_controls env sess).autoRerun = true ↔
      env.now - sess.getQ (refreshProtectionKey env.analysis_id) 0 ≥
        (if researchDepthOf pd = 1 then (5 : ℚ) else 2)) ∧
    ((display_static_progress_with_controls env sess).protectionInterval =
      some (if researchDepthOf pd = 1 then (5 : ℚ) else 2)) ∧
    ((display_static_progress_with_controls env sess).autoRerun = true →
      (display_static_progress_with_controls env sess).slept =
        some (if researchDepthOf pd = 1 then (6 : ℚ) else 3)) ∧
    (researchDepthOf pd = 1 → researchDepthOf pd' ≠ 1 →
      ∃ a b : ℚ,
        (display_static_progress_with_controls env sess).protectionInterval =
          some a ∧
        (display_static_progress_with_controls env' sess').protectionInterval =
          some b ∧
        b < a ∧ b = 2 ∧ a = 5) := by
  obtain ⟨hA, hB, hC⟩ := display_controls_characterization env sess pd
    hlock hraise hpd hstatus hshow hclick hauto
  obtain ⟨hA', _, _⟩ := display_controls_characterization env' sess' pd'
    hlock' hraise' hpd' hstatus' hshow' hclick' hauto'
  refine ⟨?_, hA, hC, ?_⟩
  · rw [hB]
    simp
  · intro hd hd'
    refine ⟨5, 2, ?_, ?_, by norm_num, rfl, rfl⟩
    · rw [hA, hd]
      simp
    · rw [hA', if_neg hd']

/-- C4 witness: at time 10 with no prior protected refresh, a depth-1 plan
(interval 5) and a depth-2 plan (interval 2) both exist, and the depth-1
interval is strictly larger. -/
theorem claim4_refresh_rate_limiter_witness :
    ∃ a b : ℚ,
      (display_static_progress_with_controls
          { analysis_id := "a1",
            progressData := some { status := some "running",
                                   steps := some [{ research_depth := some 1 }] },
            now := 10 }
          ⟨[("auto_refresh_unified_a1", SVal.b true)]⟩).protectionInterval =
        some a ∧
      (display_static_progress_with_controls
          { analysis_id := "a1",
            progressData := some { status := some "running" },
            now := 10 }
          ⟨[("auto_refresh_unified_a1", SVal.b true)]⟩).protectionInterval =
        some b ∧
      b < a ∧ b = 2 ∧ a = 5 :=
  (claim4_refresh_rate_limiter
      { analysis_id := "a1",
        progressData := some { status := some "running",
                               steps := some [{ research_depth := some 1 }] },
        now := 10 }
      ⟨[("auto_refresh_unified_a1", SVal.b true)]⟩
      { status := some "running", steps := some [{ research_depth := some 1 }] }
      { analysis_id := "a1",
        progressData := some { status := some "running" },
        now := 10 }
      ⟨[("auto_refresh_unified_a1", SVal.b true)]⟩
      { status := some "running" }
      (by decide) rfl rfl rfl rfl rfl (by decide)
      (by decide) rfl rfl rfl rfl rfl (by decide)).2.2.2 rfl (by decide)

/-- The outcome of the file-removal attempt as a function of the job id and
the file backend alone. -/
def expectedFileOutcome (analysisId : String) (fb : FileBackend) : DelOutcome :=
  if fb.files.contains (progressFilePath "./data" analysisId) then
    (if fb.removeFails then .err else .ok)
  else .notFound

/-- The outcome of the Redis-removal attempt as a function of the job id and
the Redis backend alone. -/
def expectedRedisOutcome (analysisId : String) (rb : RedisBackend) : DelOutcome :=
  if rb.enabled then
    (if rb.connectFails then .err
     else if rb.keys.contains (redisKey analysisId) then .ok else .notFound)
  else .skipped

/-- C3: `delete_analysis_record` attempts both backends independently — each
backend's outcome is a function of that backend's state alone — collects a
non-fatal error message per failing backend, succeeds overall whenever at
least one backend removal succeeded, and in particular reports
`{file: ok, redis: not_found}` without failing when the record survives only
in the durable store. -/
theorem claim3_delete_independent (analysisId : String) (fb : FileBackend)
    (rb : RedisBackend) :
    ((delete_analysis_record analysisId fb rb).fileOutcome =
      expectedFileOutcome analysisId fb) ∧
    ((delete_analysis_record analysisId fb rb).redisOutcome =
      expectedRedisOutcome analysisId rb) ∧
    ((delete_analysis_record analysisId fb rb).overallSuccess = true ↔
      ((delete_analysis_record analysisId fb rb).fileOutcome = .ok ∨
       (delete_analysis_record analysisId fb rb).redisOutcome = .ok)) ∧
    ((delete_analysis_record analysisId fb rb).errorCount =
      (if (delete_analysis_record analysisId fb rb).fileOutcome = .err
       then 1 else 0) +
      (if (delete_analysis_record analysisId fb rb).redisOutcome = .err
       then 1 else 0)) ∧
    (fb.files.contains (progressFilePath "./data" analysisId) = true →
     fb.removeFails = false → rb.enabled = true → rb.connectFails = false →
     rb.keys.contains (redisKey analysisId) = false →
     (delete_analysis_record analysisId fb rb).fileOutcome = .ok ∧
     (delete_analysis_record analysisId fb rb).redisOutcome = .notFound ∧
     (delete_analysis_record analysisId fb rb).overallSuccess = true) := by
  by_cases hf : progressFilePath "./data" analysisId ∈ fb.files <;>
    rcases hrf : fb.removeFails with _ | _ <;>
    rcases he : rb.enabled with _ | _ <;>
    rcases hc : rb.connectFails with _ | _ <;>
    by_cases hk : redisKey analysisId ∈ rb.keys <;>
    simp [delete_analysis_record, expectedFileOutcome, expectedRedisOutcome,
          hf, hrf, he, hc, hk]

/-- C3 witness: a record present only in the durable store is deleted there,
reported `not_found` in Redis, and the call succeeds overall. -/
theorem claim3_delete_independent_witness :
    ((delete_analysis_record "a1"
        { files := ["./data/progress_a1.json"] }
        { keys := [] }).fileOutcome = .ok) ∧
    ((delete_analysis_record "a1"
        { files := ["./data/progress_a1.json"] }
        { keys := [] }).redisOutcome = .notFound) ∧
    ((delete_analysis_record "a1"
        { files := ["./data/progress_a1.json"] }
        { keys := [] }).overallSuccess = true) :=
  (claim3_delete_independent "a1"
      { files := ["./data/progress_a1.json"] } { keys := [] }).2.2.2.2
    (by decide) rfl rfl rfl rfl

theorem isPrefixOf_append_self (l t : List Char) :
    l.isPrefixOf (l ++ t) = true := by
  induction l with
  | nil => simp [List.isPrefixOf]
  | cons a l ih => simp [List.cons_append, List.isPrefixOf, ih]

theorem string_data_inj {s t : String} (h : s.data = t.data) : s = t := by
  cases s
  cases t
  exact congrArg String.mk h

theorem filter_ne_eq_self_of_not_mem {l : List String} {k : String}
    (hk : k ∉ l) : l.filter (fun p => p != k) = l := by
  apply List.filter_eq_self.mpr
  intro a ha
  simp only [bne_iff_ne, ne_eq, decide_eq_true_eq]
  intro rfl_eq
  exact hk (rfl_eq ▸ ha)

/-- C8: for every job id, the expiring-store key is exactly
`progress:{job_id}` and the durable-store path is exactly
`{data_dir}/progress_{job_id}.json`; `delete_analysis_record` removes exactly
those addresses from the backends, the listing scans (`progress_*.json` glob
and `progress:*` key pattern) match exactly those addresses, and both schemes
are injective, so there is one file and one key per job. -/
theorem claim8_keying (jobId jobId' dataDir : String) (fb : FileBackend)
    (rb : RedisBackend) :
    (redisKey jobId = "progress:" ++ jobId) ∧
    (progressFilePath dataDir jobId =
      dataDir ++ "/progress_" ++ jobId ++ ".json") ∧
    (fb.removeFails = false →
      (delete_analysis_record jobId fb rb).files =
        fb.files.filter (fun p => p != progressFilePath "./data" jobId)) ∧
    (rb.enabled = true → rb.connectFails = false →
      (delete_analysis_record jobId fb rb).keys =
        rb.keys.filter (fun k => k != redisKey jobId)) ∧
    (matchesProgressGlob (progressFileName jobId) = true) ∧
    (matchesRedisPattern (redisKey jobId) = true) ∧
    (progressFilePath dataDir jobId = progressFilePath dataDir jobId' →
      jobId = jobId') ∧
    (redisKey jobId = redisKey jobId' → jobId = jobId') := by
  refine ⟨rfl, ?_, ?_, ?_, ?_, ?_, ?_, ?_⟩
  · simp only [progressFilePath, progressFileName, String.append_assoc]
    congr 1
  · intro hrf
    by_cases hf : progressFilePath "./data" jobId ∈ fb.files
    · simp [delete_analysis_record, hf, hrf]
    · simp [delete_analysis_record, hf, hrf,
            filter_ne_eq_self_of_not_mem hf]
  · intro he hc
    by_cases hk : redisKey jobId ∈ rb.keys
    · simp [delete_analysis_record, he, hc, hk]
    · simp [delete_analysis_record, he, hc, hk,
            filter_ne_eq_self_of_not_mem hk]
  · simp [matchesProgressGlob, progressFileName, String.data_append,
          List.append_assoc, List.reverse_append, isPrefixOf_append_self]
  · simp [matchesRedisPattern, redisKey, String.data_append,
          isPrefixOf_append_self]
  · intro h
    apply string_data_inj
    have hd := congrArg String.data h
    simp only [progressFilePath, progressFileName, String.data_append,
               List.append_assoc] at hd
    have h1 := List.append_cancel_left hd
    have h2 := List.append_cancel_left h1
    have h3 := List.append_cancel_left h2
    exact List.append_cancel_right h3
  · intro h
    apply string_data_inj
    have hd := congrArg String.data h
    simp only [redisKey, String.data_append] at hd
    exact List.append_cancel_left hd

/-- C8 witness: the schemes at a concrete job id. -/
theorem claim8_keying_witness :
    ((delete_analysis_record "a1"
        { files := ["./data/progress_a1.json"] }
        { keys := ["progress:a1"] }).keys =
      List.filter (fun k => k != redisKey "a1") ["progress:a1"]) ∧
    (matchesProgressGlob (progressFileName "a1") = true) := by
  have h := claim8_keying "a1" "a2" "./data"
    { files := ["./data/progress_a1.json"] } { keys := ["progress:a1"] }
  exact ⟨h.2.2.2.1 rfl rfl, h.2.2.2.2.1⟩

/-- C5: filtering history records keeps exactly the records whose status
equals the mapped target status and whose last update is at least the
range's cutoff; the result is a subsequence of the input (each stage is a
`List.filter`), and the `全部` ("all") option disables the corresponding
predicate. -/
theorem claim5_history_filters (records : List HistoryRecord)
    (sf tf : String) (sod now : ℚ) :
    ((apply_filters records sf tf sod now).Sublist records) ∧
    (apply_filters records "全部" "全部" sod now = records) ∧
    (∀ target, statusMap sf = some target → tf = "全部" →
      apply_filters records sf tf sod now =
        records.filter (fun r => r.status == some target)) ∧
    (sf = "全部" → tf ≠ "全部" →
      apply_filters records sf tf sod now =
        records.filter
          (fun r => r.last_update.getD 0 ≥ cutoffTimestamp tf sod now)) ∧
    (∀ target, statusMap sf = some target → tf ≠ "全部" →
      apply_filters records sf tf sod now =
        (records.filter (fun r => r.status == some target)).filter
          (fun r => r.last_update.getD 0 ≥ cutoffTimestamp tf sod now)) := by
  have hmapAll : statusMap "全部" = none := by decide
  refine ⟨?_, ?_, ?_, ?_, ?_⟩
  · by_cases h1 : sf = "全部" <;> by_cases h2 : tf = "全部" <;>
      rcases hm : statusMap sf with _ | target <;>
      simp [apply_filters, h1, h2, hm]
  · simp [apply_filters]
  · intro target ht h2
    have hne : sf ≠ "全部" := by
      intro e
      rw [e, hmapAll] at ht
      exact Option.noConfusion ht
    simp [apply_filters, hne, ht, h2]
  · intro h1 h2
    simp [apply_filters, h1, h2]
  · intro target ht h2
    have hne : sf ≠ "全部" := by
      intro e
      rw [e, hmapAll] at ht
      exact Option.noConfusion ht
    simp [apply_filters, hne, ht, h2]

/-- C5 witness: the combined status and 7-day filters at a concrete record
list. -/
theorem claim5_history_filters_witness :
    apply_filters
        [{ status := some "completed", last_update := some 50 },
         { status := some "running", last_update := some 5 },
         { status := some "completed", last_update := some 1 }]
        "已完成" "最近7天" 0 100 =
      (List.filter (fun r => r.status == some "completed")
          [{ status := some "completed", last_update := some 50 },
           { status := some "running", last_update := some 5 },
           { status := some "completed", last_update := some 1 }]).filter
        (fun r => r.last_update.getD 0 ≥ cutoffTimestamp "最近7天" 0 100) :=
  (claim5_history_filters
      [{ status := some "completed", last_update := some 50 },
       { status := some "running", last_update := some 5 },
       { status := some "completed", last_update := some 1 }]
      "已完成" "最近7天" 0 100).2.2.2.2 "completed" (by decide) (by decide)

/-- C10: the statistics summary never divides by zero — it returns without
rendering on an empty record list, and on a non-empty list every percentage
is computed with the non-zero list length as divisor, the failed metric
showing the literal `0%` when no record failed. -/
theorem claim10_statistics_no_div_zero (records : List HistoryRecord) :
    (records = [] → display_statistics records = none) ∧
    (records ≠ [] →
      ∃ s, display_statistics records = some s ∧
        s.completedPct.isSome = true ∧
        (s.failedCount = 0 → s.failedDelta = .zeroPercent) ∧
        (0 < s.failedCount → ∃ q, s.failedDelta = .pct (some q))) := by
  constructor
  · intro h
    simp [display_statistics, h]
  · intro h
    have hne : records.isEmpty = false := by
      simpa [List.isEmpty_iff] using h
    have hlen : records.length ≠ 0 := by
      simpa [List.length_eq_zero] using h
    refine ⟨{ totalRecords := records.length,
              completedCount := (records.filter
                (fun r => r.status == some "completed")).length,
              completedPct := pctOf (records.filter
                (fun r => r.status == some "completed")).length records.length,
              runningCount := (records.filter
                (fun r => r.status == some "running")).length,
              failedCount := (records.filter
                (fun r => r.status == some "failed")).length,
              failedDelta :=
                if 0 < (records.filter
                    (fun r => r.status == some "failed")).length then
                  .pct (pctOf (records.filter
                    (fun r => r.status == some "failed")).length records.length)
                else .zeroPercent }, ?_, ?_, ?_, ?_⟩
    · simp [display_statistics, hne]
    · simp [pctOf, hlen]
    · intro hzero
      simp only at hzero
      simp [hzero]
    · intro hpos
      simp only at hpos
      refine ⟨(((records.filter
          (fun r => r.status == some "failed")).length : ℚ) /
          (records.length : ℚ) * 100), ?_⟩
      simp [if_pos hpos, pctOf, hlen]

/-- C10 witness: a concrete non-empty list with no failures. -/
theorem claim10_statistics_no_div_zero_witness :
    ∃ s, display_statistics
        [{ status := some "completed", last_update := some 1 }] = some s ∧
      s.completedPct.isSome = true ∧
      s.failedDelta = .zeroPercent := by
  obtain ⟨s, hs, hpct, hzero, _⟩ :=
    (claim10_statistics_no_div_zero
      [{ status := some "completed", last_update := some 1 }]).2 (by decide)
  have hmap : (display_statistics
      [{ status := some "completed", last_update := some 1 }]).map
      StatsView.failedCount = some 0 := by decide
  rw [hs] at hmap
  simp at hmap
  exact ⟨s, hs, hpct, hzero hmap⟩
